import Mathlib

/-!
Verification of the ReportDoc PDF service (app.py): a shallow embedding of
its data model, validation, filename sanitisation, fallback PDF pagination,
temporary-file lifecycle and the two main endpoints, with theorems settling
the specification claims.
-/

/-! ## Data model (app.py, classes Owner / GSheet / Change / Payload) -/

structure Owner where
  name : String
  email : String
deriving DecidableEq, Repr

structure GSheet where
  subtitle : String
  url : String
deriving DecidableEq, Repr

structure Change where
  date : String
  change : String
deriving DecidableEq, Repr

structure Payload where
  title : String
  media_team : String
  owner : Owner
  frequency : String
  platforms : List String
  tools : List String
  automated : Bool
  google_sheets : List GSheet
  bigquery_link : Option String
  report_link : String
  adjustments : List String
  description : String
  notes : Option String
  version : String
  changelog : List Change
deriving DecidableEq, Repr

/-! ## Validation (Payload field checks and `_cross_field_rules`) -/

/-- `Field(pattern=r"^(daily|weekly|monthly)$")` on `frequency`. -/
def validFrequency (s : String) : Bool :=
  s == "daily" || s == "weekly" || s == "monthly"

/-- Python truthiness test `not self.notes or not str(self.notes).strip()`:
`notes` is `None`, empty, or whitespace-only. -/
def notesBlank : Option String → Bool
  | none => true
  | some s => s == "" || s.trim == ""

/-- The pydantic field-level checks of `Payload`: the `frequency` pattern plus
the `EmailStr` / `HttpUrl` format validators, the latter two taken as
parameters since they live in the pydantic library, not in this repository. -/
def fieldValid (emailOk urlOk : String → Bool) (p : Payload) : Bool :=
  validFrequency p.frequency &&
  emailOk p.owner.email &&
  (match p.bigquery_link with
   | none => true
   | some u => urlOk u) &&
  urlOk p.report_link &&
  p.google_sheets.all (fun g => urlOk g.url)

/-- `Payload._cross_field_rules` (app.py lines 71-77): reject
`automated=true` without `bigquery_link`; default blank `notes` to the
contact message. -/
def cross_field_rules (p : Payload) : Except String Payload :=
  if p.automated && p.bigquery_link.isNone then
    .error "bigquery_link is required when automated=true"
  else if notesBlank p.notes then
    .ok { p with notes := some ("For access issues, contact " ++ p.owner.email) }
  else
    .ok p

/-- Whole-model validation: pydantic runs the field validators, then the
`mode="after"` model validator `_cross_field_rules`. -/
def validatePayload (emailOk urlOk : String → Bool) (p : Payload) :
    Except String Payload :=
  if fieldValid emailOk urlOk p then cross_field_rules p
  else .error "field validation failed"

/-- A minimal valid payload used to instantiate theorems on concrete input. -/
def samplePayload : Payload :=
  { title := "Weekly Report"
    media_team := "media"
    owner := { name := "O", email := "owner@example.com" }
    frequency := "weekly"
    platforms := []
    tools := []
    automated := false
    google_sheets := []
    bigquery_link := none
    report_link := "https://example.com/r"
    adjustments := []
    description := "d"
    notes := none
    version := "1.0"
    changelog := [] }

/-- `samplePayload` with `automated := true` and no `bigquery_link`:
violates the cross-field invariant. -/
def violatingPayload : Payload :=
  { samplePayload with automated := true, bigquery_link := none }

/-- The validator output on `samplePayload`: only `notes` is filled in. -/
def samplePayloadValidated : Payload :=
  { samplePayload with notes := some "For access issues, contact owner@example.com" }

/-- Trivial stand-in format validators for concrete instantiations. -/
def anyOk : String → Bool := fun _ => true

/-! ## Filename sanitisation (`_safe_filename`, app.py lines 125-127) -/

/-- The character class `[A-Za-z0-9_-]` of the regex in `_safe_filename`. -/
def isSafeChar (c : Char) : Bool :=
  c.isAlphanum || c == '_' || c == '-'

/-- `re.sub(r"[^A-Za-z0-9_-]+", "_", ·)` over the character list: each
maximal run of characters outside the class becomes a single underscore.
The flag records whether we are inside such a run (already replaced). -/
def subRuns (inRun : Bool) : List Char → List Char
  | [] => []
  | c :: cs =>
    if isSafeChar c then c :: subRuns false cs
    else if inRun then subRuns true cs
    else '_' :: subRuns true cs

/-- Python `str.strip("_")`: drop leading and trailing underscores. -/
def stripUnderscores (l : List Char) : List Char :=
  ((l.dropWhile (· == '_')).reverse.dropWhile (· == '_')).reverse

/-- `re.sub(r"[^A-Za-z0-9_-]+", "_", title).strip("_") or "report"`. -/
def safeBase (title : String) : String :=
  let b := String.mk (stripUnderscores (subRuns false title.data))
  if b = "" then "report" else b

/-- `_safe_filename` with the `int(time.time())` clock value passed in. -/
def safe_filename (title : String) (now : Nat) : String :=
  safeBase title ++ "_" ++ Nat.repr now ++ ".pdf"

/-! ## Fallback-renderer footer and pagination (`_write_pdf`, lines 96-116) -/

/-- The footer literal of `draw_footer` (app.py line 105). The source bytes
between the braces are two spaces, `U+00E2 U+20AC U+00A2` (the UTF-8 bytes
of a bullet decoded as three separate characters), and two more spaces. -/
def footer_text (generated_at : String) (page_num : Nat) : String :=
  "Generated: " ++ generated_at ++ "  â€¢  Page " ++ Nat.repr page_num

/-- `height` of `A4` in points: 297mm at 72 points per inch (25.4mm). -/
def A4_HEIGHT : ℚ := 106920 / 127

/-- `text.getY() < 40` threshold of the pagination loop. -/
def BOTTOM_MARGIN : ℚ := 40

/-- Vertical advance of `textLine` after `setFont("Times-Roman", 11)`:
reportlab defaults the leading to 1.2 times the font size. -/
def LEADING : ℚ := 66 / 5

/-- State of the fallback pagination loop: pages already flushed (each with
its footer string), the current page number, the lines in the live text
object, and the cursor height. -/
structure FallbackState where
  pages : List (List String × String)
  page_num : Nat
  cur : List String
  y : ℚ
deriving DecidableEq

/-- `page_num = 1; text = c.beginText(40, height - 40)`. -/
def initFallback : FallbackState :=
  ⟨[], 1, [], A4_HEIGHT - 40⟩

/-- `c.drawText(text); draw_footer(page_num); c.showPage()` followed by a
fresh text object at the top margin. -/
def flushPage (generated_at : String) (st : FallbackState) : FallbackState :=
  ⟨st.pages ++ [(st.cur, footer_text generated_at st.page_num)],
   st.page_num + 1, [], A4_HEIGHT - 40⟩

/-- `text.textLine(line)`: append the line, cursor drops by the leading. -/
def writeLine (st : FallbackState) (line : String) : FallbackState :=
  { st with cur := st.cur ++ [line], y := st.y - LEADING }

/-- One iteration of `for line in md_source.splitlines()`: flush first when
the cursor has crossed the bottom margin, then write the line. -/
def fallbackStep (generated_at : String) (st : FallbackState) (line : String) :
    FallbackState :=
  writeLine (if st.y < BOTTOM_MARGIN then flushPage generated_at st else st) line

/-- The complete fallback layout: fold the loop over the source lines, then
`c.drawText(text); draw_footer(page_num)` flushes the final page. -/
def fallback_pages (generated_at : String) (md_lines : List String) :
    List (List String × String) :=
  let fin := md_lines.foldl (fallbackStep generated_at) initFallback
  fin.pages ++ [(fin.cur, footer_text generated_at fin.page_num)]

/-! ## Temporary-file lifecycle of `_write_pdf` (app.py lines 88-123) -/

/-- The slice of the filesystem `_write_pdf` touches: the private temporary
file, `some content` when it exists on disk. -/
structure TmpFs where
  tmp : Option (List Nat)
deriving DecidableEq

/-- `_write_pdf`'s control flow around the renderer. `render` is the chosen
renderer's outcome: `.ok bytes` means it returned after writing `bytes` to
the temporary file, `.error e` means it raised. `unlink_ok` is whether
`os.unlink` succeeds; its failure is caught and ignored. Returns the
function's outcome paired with the final state of the temporary file. -/
def write_pdf (render : Except String (List Nat)) (unlink_ok : Bool)
    (fs : TmpFs) : Except String (List Nat) × TmpFs :=
  -- with tempfile.NamedTemporaryFile(delete=False): an empty file exists
  let fs1 : TmpFs := { fs with tmp := some [] }
  -- try: renderer writes tmp_path, then the bytes are read back
  let body : Except String (List Nat) × TmpFs :=
    match render with
    | .error e => (.error e, fs1)
    | .ok bytes =>
        let fs2 : TmpFs := { fs1 with tmp := some bytes }
        (.ok (fs2.tmp.getD []), fs2)
  -- finally: try os.unlink(tmp_path) except Exception: pass
  let fs3 : TmpFs := if unlink_ok then { body.2 with tmp := none } else body.2
  (body.1, fs3)

/-! ## Authentication (`require_api_key`, app.py lines 13-16) -/

/-- Python truthiness of an optional string: `None` and `""` are falsy. -/
def pyTruthy : Option String → Bool
  | none => false
  | some s => !(s == "")

/-- `require_api_key`: fail 401 when `not API_KEY or x_api_key != API_KEY`,
otherwise return `True`. `api_key` is the process-start `REPORTDOC_API_KEY`
value, `x_api_key` the request header (both may be absent). -/
def require_api_key (api_key x_api_key : Option String) : Except Nat Bool :=
  if !pyTruthy api_key || x_api_key != api_key then .error 401
  else .ok true

/-! ## Base64 (`base64.b64encode(...).decode("ascii")`, app.py line 167) -/

/-- The standard base64 alphabet, by sextet value. -/
def b64CharOf (n : Nat) : Char :=
  if n < 26 then Char.ofNat (65 + n)
  else if n < 52 then Char.ofNat (97 + (n - 26))
  else if n < 62 then Char.ofNat (48 + (n - 52))
  else if n = 62 then '+' else '/'

/-- Inverse of the base64 alphabet. -/
def b64IndexOf (c : Char) : Nat :=
  if 65 ≤ c.toNat && c.toNat ≤ 90 then c.toNat - 65
  else if 97 ≤ c.toNat && c.toNat ≤ 122 then c.toNat - 97 + 26
  else if 48 ≤ c.toNat && c.toNat ≤ 57 then c.toNat - 48 + 52
  else if c == '+' then 62 else 63

/-- `base64.b64encode`: groups of three bytes become four characters, a
short final group is padded with `=`. -/
def b64encodeBytes : List Nat → List Char
  | b0 :: b1 :: b2 :: rest =>
    let n := b0 * 65536 + b1 * 256 + b2
    b64CharOf (n / 262144 % 64) :: b64CharOf (n / 4096 % 64) ::
      b64CharOf (n / 64 % 64) :: b64CharOf (n % 64) :: b64encodeBytes rest
  | [b0, b1] =>
    let n := b0 * 65536 + b1 * 256
    [b64CharOf (n / 262144 % 64), b64CharOf (n / 4096 % 64),
     b64CharOf (n / 64 % 64), '=']
  | [b0] =>
    let n := b0 * 65536
    [b64CharOf (n / 262144 % 64), b64CharOf (n / 4096 % 64), '=', '=']
  | [] => []

/-- `base64.b64decode` on well-formed input: four characters back to three
bytes, with `=` padding cutting the final group short. -/
def b64decodeChars : List Char → List Nat
  | c0 :: c1 :: c2 :: c3 :: rest =>
    let i0 := b64IndexOf c0
    let i1 := b64IndexOf c1
    if c2 == '=' then [i0 * 4 + i1 / 16]
    else
      let i2 := b64IndexOf c2
      if c3 == '=' then [i0 * 4 + i1 / 16, i1 % 16 * 16 + i2 / 4]
      else
        let i3 := b64IndexOf c3
        (i0 * 4 + i1 / 16) :: (i1 % 16 * 16 + i2 / 4) ::
          (i2 % 4 * 64 + i3) :: b64decodeChars rest
  | _ => []

/-! ## Document rendering (`_render_html_and_md`, app.py lines 80-86) -/

/-- The fixed template environment: the two Jinja templates looked up by
name and the markdown-to-HTML converter. These live outside app.py (the
`templates/` directory and the markdown2 library), so they enter the model
as opaque-but-fixed functions of exactly the data the code passes them. -/
structure TemplateEnv where
  mdTemplate : Payload → String → String
  htmlTemplate : Payload → String → String → String
  markdownToHtml : String → String

/-- `_render_html_and_md`: render the Markdown template from the payload
fields plus `generated_at`, convert it to an HTML fragment, render the page
template with the same fields, the fragment as `content`, and
`generated_at`; return `(html, md_source)`. -/
def render_html_and_md (tenv : TemplateEnv) (payload : Payload)
    (generated_at : String) : String × String :=
  let md_source := tenv.mdTemplate payload generated_at
  let inner_html := tenv.markdownToHtml md_source
  let html := tenv.htmlTemplate payload inner_html generated_at
  (html, md_source)

/-! ## Storage directory and endpoints (app.py lines 134-169) -/

/-- The flat `files/` storage directory: newest write for a name wins. -/
structure Storage where
  files : List (String × List Nat)
deriving DecidableEq

/-- `open(final_path, "wb")`: create or overwrite a stored file. -/
def Storage.write (st : Storage) (name : String) (content : List Nat) :
    Storage :=
  ⟨(name, content) :: st.files⟩

/-- Existence/content lookup in the storage directory. -/
def Storage.read (st : Storage) (name : String) : Option (List Nat) :=
  st.files.lookup name

/-- `GET /file/{file_name}` (`download_file`): 404 when the path does not
exist, otherwise the stored bytes as an `application/pdf` response. -/
def download_file (st : Storage) (file_name : String) :
    Except Nat (List Nat) :=
  match st.read file_name with
  | none => .error 404
  | some content => .ok content

/-- `title.replace(" ", "_")` as used for the response `filename` field. -/
def replaceSpaces (s : String) : String :=
  String.mk (s.data.map (fun c => if c = ' ' then '_' else c))

/-- `str(request.base_url).rstrip("/")`. -/
def rstripSlash (s : String) : String :=
  String.mk ((s.data.reverse.dropWhile (· == '/')).reverse)

/-- The JSON body returned by `POST /render_b64`. -/
structure B64Response where
  filename : String
  mime : String
  data : String
  file_url : String
deriving DecidableEq

/-- `POST /render_b64` (`render_pdf_base64`, app.py lines 149-169). The
request-scoped effects are passed in: `parse` is FastAPI's body validation
outcome, `render` and `write` are `_render_html_and_md` and `_write_pdf`
with their possible exceptions, `now` the `int(time.time())` clock and
`base_url` the request base URL. Returns the response (or the propagated
exception) together with the storage directory afterwards. -/
def render_pdf_base64 (parse : Except String Payload)
    (render : Payload → String → Except String (String × String))
    (write : String → String → String → Except String (List Nat))
    (generated_at : String) (now : Nat) (base_url : String) (st : Storage) :
    Except String B64Response × Storage :=
  match parse with
  | .error e => (.error e, st)
  | .ok payload =>
    match render payload generated_at with
    | .error e => (.error e, st)
    | .ok (html, md_source) =>
      match write html md_source generated_at with
      | .error e => (.error e, st)
      | .ok pdf_bytes =>
        let fname := safe_filename payload.title now
        let st2 := st.write fname pdf_bytes
        let base := rstripSlash base_url
        let file_url := base ++ "/file/" ++ fname
        (.ok { filename := replaceSpaces payload.title ++ ".pdf"
               mime := "application/pdf"
               data := String.mk (b64encodeBytes pdf_bytes)
               file_url := file_url }, st2)

/-- Whether an `Except` computation succeeded. -/
def exceptOk {ε α : Type} : Except ε α → Bool
  | .ok _ => true
  | .error _ => false

/-! ## Theorems -/

/-- C2: validation of a report-metadata document fails whenever
`automated=true` and `bigquery_link` is absent, and every field-valid
document with `automated=false` validates successfully regardless of
`bigquery_link`; the violation is rejected (an error), never corrected. -/
theorem validation_automated_bigquery_rule (e u : String → Bool) (p : Payload) :
    (p.automated = true → p.bigquery_link = none →
      exceptOk (validatePayload e u p) = false)
  ∧ (fieldValid e u p = true → p.automated = false →
      exceptOk (validatePayload e u p) = true) := by
  constructor
  · intro ha hb
    unfold validatePayload cross_field_rules
    split
    · simp [ha, hb, exceptOk]
    · simp [exceptOk]
  · intro hf ha
    unfold validatePayload cross_field_rules
    simp [hf, ha]
    split <;> simp [exceptOk]

/-- Witness for C2: the concrete violating payload is rejected and the
concrete `automated=false` payload (without `bigquery_link`) validates. -/
theorem validation_automated_bigquery_rule_witness :
    exceptOk (validatePayload anyOk anyOk violatingPayload) = false
  ∧ exceptOk (validatePayload anyOk anyOk samplePayload) = true :=
  ⟨(validation_automated_bigquery_rule anyOk anyOk violatingPayload).1 rfl rfl,
   (validation_automated_bigquery_rule anyOk anyOk samplePayload).2 rfl rfl⟩

/-- C3: when `notes` is omitted, empty or whitespace-only, successful
validation stores `notes = "For access issues, contact {owner.email}"`;
every other field is returned unchanged, and when `notes` is not blank the
whole payload is returned unchanged — the notes default is the only
auto-correction. -/
theorem validation_notes_default (e u : String → Bool) (p q : Payload)
    (h : validatePayload e u p = .ok q) :
    (notesBlank p.notes = true →
      q.notes = some ("For access issues, contact " ++ p.owner.email))
  ∧ q.title = p.title ∧ q.media_team = p.media_team ∧ q.owner = p.owner
  ∧ q.frequency = p.frequency ∧ q.platforms = p.platforms
  ∧ q.tools = p.tools ∧ q.automated = p.automated
  ∧ q.google_sheets = p.google_sheets ∧ q.bigquery_link = p.bigquery_link
  ∧ q.report_link = p.report_link ∧ q.adjustments = p.adjustments
  ∧ q.description = p.description ∧ q.version = p.version
  ∧ q.changelog = p.changelog
  ∧ (notesBlank p.notes = false → q = p) := by
  unfold validatePayload cross_field_rules at h
  split at h
  · split at h
    · exact absurd h (by simp)
    · split at h
      · cases h
        refine ⟨fun _ => rfl, ?_⟩
        simp_all
      · cases h
        rename_i hblank
        simp_all
  · exact absurd h (by simp)

/-- Witness for C3: validating the concrete payload with omitted notes
yields the payload with exactly the contact message filled in. -/
theorem validation_notes_default_witness :
    samplePayloadValidated.notes =
      some ("For access issues, contact " ++ samplePayload.owner.email) :=
  (validation_notes_default anyOk anyOk samplePayload samplePayloadValidated
    rfl).1 rfl

/-- C4: `_safe_filename(title)` is `base ++ "_" ++ unix_seconds ++ ".pdf"`,
where `base` is `title` with every maximal run of characters outside
`[A-Za-z0-9_-]` collapsed to one underscore, stripped of leading and
trailing underscores, and `"report"` when that leaves nothing; in
particular `"Weekly Report!!"` gives `Weekly_Report_<digits>.pdf`. -/
theorem safe_filename_spec (now : Nat) :
    (∀ title, safe_filename title now =
      safeBase title ++ "_" ++ Nat.repr now ++ ".pdf")
  ∧ safe_filename "Weekly Report!!" now =
      "Weekly_Report" ++ "_" ++ Nat.repr now ++ ".pdf"
  ∧ safeBase "a  +  b" = "a_b"
  ∧ safeBase "" = "report"
  ∧ safeBase "!!" = "report"
  ∧ safeBase "_Weekly_" = "Weekly" :=
  ⟨fun _ => rfl, rfl, rfl, rfl, rfl, rfl⟩

/-- C5: the document renderer is deterministic — with the template
environment fixed, two runs of `_render_html_and_md` on equal payloads and
equal generation timestamps return byte-identical `(html, md_source)`. -/
theorem render_html_and_md_deterministic (tenv : TemplateEnv)
    (p1 p2 : Payload) (t1 t2 : String) (hp : p1 = p2) (ht : t1 = t2) :
    render_html_and_md tenv p1 t1 = render_html_and_md tenv p2 t2 := by
  rw [hp, ht]

/-- Witness for C5: two runs on the concrete sample payload and a concrete
timestamp coincide. -/
theorem render_html_and_md_deterministic_witness :
    render_html_and_md ⟨fun _ _ => "md", fun _ _ _ => "html", fun s => s⟩
        samplePayload "2025-01-01 00:00" =
      render_html_and_md ⟨fun _ _ => "md", fun _ _ _ => "html", fun s => s⟩
        samplePayload "2025-01-01 00:00" :=
  render_html_and_md_deterministic ⟨fun _ _ => "md", fun _ _ _ => "html",
    fun s => s⟩ samplePayload samplePayload "2025-01-01 00:00"
    "2025-01-01 00:00" rfl rfl

/-- C6 counterexample: the fallback footer at timestamp `"t"`, page 1, is
not the claimed string with single spaces around a `U+2022` bullet — the
source literal has two spaces on each side of the three characters
`U+00E2 U+20AC U+00A2`. -/
theorem footer_text_not_single_spaced_bullet :
    footer_text "t" 1 ≠ "Generated: t • Page 1" := by decide

/-- String concatenation is associative (on the underlying character
lists). -/
theorem str_append_assoc (a b c : String) : (a ++ b) ++ c = a ++ (b ++ c) := by
  obtain ⟨a⟩ := a
  obtain ⟨b⟩ := b
  obtain ⟨c⟩ := c
  apply congrArg String.mk
  exact List.append_assoc a b c

/-- C6 amended: the footer drawn on every page is exactly
`"Generated: {timestamp}"`, two spaces, the character sequence
`U+00E2 U+20AC U+00A2` (the mojibake of a bullet), two spaces, and
`"Page {n}"`; no `U+2022` bullet occurs in the template text. -/
theorem footer_text_spec (t : String) (n : Nat) :
    footer_text t n =
      "Generated: " ++ t ++ "  " ++ String.mk ['â', '€', '¢']
        ++ "  Page " ++ Nat.repr n
  ∧ '•' ∉ (footer_text "" 1).data := by
  refine ⟨?_, by decide⟩
  have key : ∀ f : String,
      ((f ++ "  ") ++ String.mk ['â', '€', '¢']) ++ "  Page "
        = f ++ "  â€¢  Page " := by
    intro f
    rw [str_append_assoc (f ++ "  ") (String.mk ['â', '€', '¢']) "  Page ",
      str_append_assoc f "  " (String.mk ['â', '€', '¢'] ++ "  Page ")]
    rfl
  rw [show footer_text t n
      = (("Generated: " ++ t) ++ "  â€¢  Page ") ++ Nat.repr n from rfl,
    ← key ("Generated: " ++ t)]

/-- Invariant of the fallback pagination loop: the page counter is one
ahead of the flushed pages, whose footers are numbered consecutively
from 1. -/
def FallbackWF (t : String) (st : FallbackState) : Prop :=
  st.page_num = st.pages.length + 1 ∧
  st.pages.map Prod.snd = (List.range' 1 st.pages.length).map (footer_text t)

theorem fallbackStep_wf (t : String) (st : FallbackState) (l : String)
    (h : FallbackWF t st) : FallbackWF t (fallbackStep t st l) := by
  obtain ⟨h1, h2⟩ := h
  unfold fallbackStep writeLine flushPage
  split
  · refine ⟨by simp [h1], ?_⟩
    simp only [List.map_append, h2, List.length_append, List.map_cons,
      List.map_nil, List.length_map, List.length_singleton]
    rw [h1, List.range'_concat, List.map_append]
    simp [Nat.add_comm]
  · exact ⟨h1, h2⟩

theorem fallbackStep_join (t : String) (st : FallbackState) (l : String) :
    ((fallbackStep t st l).pages.map Prod.fst).join ++ (fallbackStep t st l).cur
      = ((st.pages.map Prod.fst).join ++ st.cur) ++ [l] := by
  unfold fallbackStep writeLine flushPage
  split
  · simp
  · simp

theorem fallback_foldl_inv (t : String) (lines : List String) :
    ∀ st : FallbackState, FallbackWF t st →
      FallbackWF t (lines.foldl (fallbackStep t) st) ∧
      ((lines.foldl (fallbackStep t) st).pages.map Prod.fst).join
          ++ (lines.foldl (fallbackStep t) st).cur
        = ((st.pages.map Prod.fst).join ++ st.cur) ++ lines := by
  induction lines with
  | nil => intro st h; exact ⟨h, by simp⟩
  | cons l rest ih =>
    intro st h
    have step := fallbackStep_join t st l
    obtain ⟨hwf, hjoin⟩ := ih (fallbackStep t st l) (fallbackStep_wf t st l h)
    refine ⟨hwf, ?_⟩
    simp only [List.foldl_cons] at *
    rw [hjoin, step, List.append_assoc]
    simp

/-- C7: the fallback renderer paginates the Markdown line by line — each
source line appears exactly once, in order, across the emitted pages; the
pages carry footers numbered consecutively from 1 (each page flushed with
its footer, the final page included); at least one page is emitted. -/
theorem fallback_pages_spec (t : String) (lines : List String) :
    ((fallback_pages t lines).map Prod.fst).join = lines
  ∧ (fallback_pages t lines).map Prod.snd
      = (List.range' 1 (fallback_pages t lines).length).map (footer_text t)
  ∧ 1 ≤ (fallback_pages t lines).length := by
  have hinit : FallbackWF t initFallback := ⟨rfl, rfl⟩
  obtain ⟨⟨hw1, hw2⟩, hjoin⟩ := fallback_foldl_inv t lines initFallback hinit
  unfold fallback_pages
  refine ⟨?_, ?_, ?_⟩
  · simp only [List.map_append, List.join_append, List.map_cons, List.map_nil]
    simpa [initFallback] using hjoin
  · simp only [List.map_append, List.map_cons, List.map_nil,
      List.length_append, List.length_cons, List.length_nil]
    rw [hw2, hw1, List.range'_concat, List.map_append]
    simp [Nat.add_comm]
  · simp

/-- Equality of `Except` values is decidable when both components are. -/
instance {ε α : Type} [DecidableEq ε] [DecidableEq α] :
    DecidableEq (Except ε α)
  | .error a, .error b =>
    if h : a = b then .isTrue (by rw [h])
    else .isFalse (by intro hc; injection hc; exact h (by assumption))
  | .error _, .ok _ => .isFalse (by intro hc; exact Except.noConfusion hc)
  | .ok _, .error _ => .isFalse (by intro hc; exact Except.noConfusion hc)
  | .ok a, .ok b =>
    if h : a = b then .isTrue (by rw [h])
    else .isFalse (by intro hc; injection hc; exact h (by assumption))

/-- C8: authentication is an exact string comparison against the secret
fixed at process start — a request passes if and only if the server-side
secret is a non-empty string and the header equals it; every other case
(missing or mismatched header, unset secret) is a 401 error. -/
theorem require_api_key_spec (api_key x_api_key : Option String) :
    (require_api_key api_key x_api_key = .ok true ↔
      ∃ s, api_key = some s ∧ s ≠ "" ∧ x_api_key = some s)
  ∧ (require_api_key api_key x_api_key ≠ .ok true →
      require_api_key api_key x_api_key = .error 401) := by
  have dich : require_api_key api_key x_api_key = .error 401 ∨
      require_api_key api_key x_api_key = .ok true := by
    unfold require_api_key
    split
    · exact Or.inl rfl
    · exact Or.inr rfl
  constructor
  · constructor
    · intro h
      cases api_key with
      | none => simp [require_api_key, pyTruthy] at h
      | some s =>
        by_cases hs : s = ""
        · subst hs
          simp [require_api_key, pyTruthy] at h
        · by_cases hx : x_api_key = some s
          · exact ⟨s, rfl, hs, hx⟩
          · simp [require_api_key, pyTruthy, hs, hx] at h
    · rintro ⟨s, hk, hs, hx⟩
      subst hk
      subst hx
      simp [require_api_key, pyTruthy, hs]
  · intro h
    rcases dich with hd | hd
    · exact hd
    · exact absurd hd h

/-- Witness for C8: a non-empty secret with a mismatched header is a 401;
the matching header passes; an unset secret rejects even an absent
header. -/
theorem require_api_key_spec_witness :
    require_api_key (some "k") (some "wrong") = .error 401
  ∧ require_api_key (some "k") (some "k") = .ok true
  ∧ require_api_key none none = .error 401 :=
  ⟨(require_api_key_spec (some "k") (some "wrong")).2 (by decide),
   (require_api_key_spec (some "k") (some "k")).1.2 ⟨"k", rfl, by decide, rfl⟩,
   (require_api_key_spec none none).2 (by decide)⟩

/-- C9: `_write_pdf` deletes its temporary file on every exit path — both
when the renderer succeeds and when it raises; a failure of the deletion
itself is ignored (the outcome is the same whether `os.unlink` succeeds or
not); and on success the returned bytes are exactly what the renderer
wrote to the temporary file. -/
theorem write_pdf_cleanup_spec (render : Except String (List Nat))
    (unlink_ok : Bool) (fs : TmpFs) :
    ((write_pdf render true fs).2.tmp = none)
  ∧ (∀ bytes, render = .ok bytes →
      (write_pdf render unlink_ok fs).1 = .ok bytes)
  ∧ (∀ e, render = .error e →
      (write_pdf render unlink_ok fs).1 = .error e)
  ∧ ((write_pdf render true fs).1 = (write_pdf render false fs).1) := by
  refine ⟨?_, ?_, ?_, ?_⟩
  · cases render <;> rfl
  · intro bytes hb
    subst hb
    rfl
  · intro e he
    subst he
    rfl
  · cases render <;> rfl

/-- Witness for C9: on a successful render of the concrete bytes `%PDF`
the function returns exactly those bytes, and a renderer exception is
propagated unchanged. -/
theorem write_pdf_cleanup_spec_witness :
    (write_pdf (.ok [37, 80, 68, 70]) true ⟨none⟩).1 = .ok [37, 80, 68, 70]
  ∧ (write_pdf (.error "boom") false ⟨none⟩).1 = .error "boom" :=
  ⟨(write_pdf_cleanup_spec (.ok [37, 80, 68, 70]) true ⟨none⟩).2.1
      [37, 80, 68, 70] rfl,
   (write_pdf_cleanup_spec (.error "boom") false ⟨none⟩).2.2.1 "boom" rfl⟩

/-- C10: `POST /render_b64` is atomic with respect to storage — the PDF is
written to the storage directory only after validation, template rendering
and PDF production have all succeeded, so whenever the request fails the
storage directory is exactly as it was before the request. -/
theorem render_b64_atomic (parse : Except String Payload)
    (render : Payload → String → Except String (String × String))
    (write : String → String → String → Except String (List Nat))
    (generated_at : String) (now : Nat) (base_url : String) (st : Storage)
    (e : String)
    (h : (render_pdf_base64 parse render write generated_at now base_url
      st).1 = .error e) :
    (render_pdf_base64 parse render write generated_at now base_url st).2
      = st := by
  unfold render_pdf_base64 at *
  cases parse with
  | error e1 => rfl
  | ok payload =>
    cases hr : render payload generated_at with
    | error e2 => simp [hr]
    | ok pair =>
      obtain ⟨html, md_source⟩ := pair
      cases hw : write html md_source generated_at with
      | error e3 => simp [hr, hw]
      | ok pdf_bytes =>
        simp [hr, hw] at h

/-- Witness for C10: a request whose body fails validation leaves the
concrete one-file storage directory unchanged. -/
theorem render_b64_atomic_witness :
    (render_pdf_base64 (.error "422") (fun _ _ => .ok ("h", "m"))
        (fun _ _ _ => .ok [37]) "t" 1700000000 "http://h/"
        ⟨[("old.pdf", [1])]⟩).2
      = ⟨[("old.pdf", [1])]⟩ :=
  render_b64_atomic (.error "422") (fun _ _ => .ok ("h", "m"))
    (fun _ _ _ => .ok [37]) "t" 1700000000 "http://h/" ⟨[("old.pdf", [1])]⟩
    "422" rfl

theorem b64IndexOf_b64CharOf (i : Nat) (h : i < 64) :
    b64IndexOf (b64CharOf i) = i := by
  have all : ∀ j : Fin 64, b64IndexOf (b64CharOf j.val) = j.val := by decide
  exact all ⟨i, h⟩

theorem b64CharOf_ne_pad (i : Nat) (h : i < 64) :
    (b64CharOf i == '=') = false := by
  have all : ∀ j : Fin 64, (b64CharOf j.val == '=') = false := by decide
  exact all ⟨i, h⟩

/-- Decoding inverts encoding on genuine byte sequences. -/
theorem b64_roundtrip : ∀ bs : List Nat, (∀ b ∈ bs, b < 256) →
    b64decodeChars (b64encodeBytes bs) = bs
  | [], _ => rfl
  | [b0], h => by
    have hb0 : b0 < 256 := h b0 (by simp)
    show b64decodeChars [b64CharOf (b0 * 65536 / 262144 % 64),
      b64CharOf (b0 * 65536 / 4096 % 64), '=', '='] = [b0]
    rw [b64decodeChars, if_pos (show ('=' == '=') = true from rfl)]
    rw [b64IndexOf_b64CharOf _ (Nat.mod_lt _ (by norm_num)),
      b64IndexOf_b64CharOf _ (Nat.mod_lt _ (by norm_num))]
    have e0 : b0 * 65536 / 262144 % 64 * 4 + b0 * 65536 / 4096 % 64 / 16
        = b0 := by omega
    rw [e0]
  | [b0, b1], h => by
    have hb0 : b0 < 256 := h b0 (by simp)
    have hb1 : b1 < 256 := h b1 (by simp)
    show b64decodeChars [b64CharOf ((b0 * 65536 + b1 * 256) / 262144 % 64),
      b64CharOf ((b0 * 65536 + b1 * 256) / 4096 % 64),
      b64CharOf ((b0 * 65536 + b1 * 256) / 64 % 64), '='] = [b0, b1]
    rw [b64decodeChars]
    rw [if_neg (by
      rw [b64CharOf_ne_pad _ (Nat.mod_lt _ (by norm_num))]
      exact Bool.false_ne_true)]
    rw [if_pos (show ('=' == '=') = true from rfl)]
    rw [b64IndexOf_b64CharOf _ (Nat.mod_lt _ (by norm_num)),
      b64IndexOf_b64CharOf _ (Nat.mod_lt _ (by norm_num)),
      b64IndexOf_b64CharOf _ (Nat.mod_lt _ (by norm_num))]
    have e0 : (b0 * 65536 + b1 * 256) / 262144 % 64 * 4 +
        (b0 * 65536 + b1 * 256) / 4096 % 64 / 16 = b0 := by omega
    have e1 : (b0 * 65536 + b1 * 256) / 4096 % 64 % 16 * 16 +
        (b0 * 65536 + b1 * 256) / 64 % 64 / 4 = b1 := by omega
    rw [e0, e1]
  | b0 :: b1 :: b2 :: rest, h => by
    have hb0 : b0 < 256 := h b0 (by simp)
    have hb1 : b1 < 256 := h b1 (by simp)
    have hb2 : b2 < 256 := h b2 (by simp)
    have ih := b64_roundtrip rest (fun b hb => h b (by simp [hb]))
    show b64decodeChars (b64CharOf ((b0 * 65536 + b1 * 256 + b2) / 262144 % 64)
      :: b64CharOf ((b0 * 65536 + b1 * 256 + b2) / 4096 % 64)
      :: b64CharOf ((b0 * 65536 + b1 * 256 + b2) / 64 % 64)
      :: b64CharOf ((b0 * 65536 + b1 * 256 + b2) % 64)
      :: b64encodeBytes rest) = b0 :: b1 :: b2 :: rest
    rw [b64decodeChars]
    rw [if_neg (by
      rw [b64CharOf_ne_pad _ (Nat.mod_lt _ (by norm_num))]
      exact Bool.false_ne_true)]
    rw [if_neg (by
      rw [b64CharOf_ne_pad _ (Nat.mod_lt _ (by norm_num))]
      exact Bool.false_ne_true)]
    rw [b64IndexOf_b64CharOf _ (Nat.mod_lt _ (by norm_num)),
      b64IndexOf_b64CharOf _ (Nat.mod_lt _ (by norm_num)),
      b64IndexOf_b64CharOf _ (Nat.mod_lt _ (by norm_num)),
      b64IndexOf_b64CharOf _ (Nat.mod_lt _ (by norm_num)), ih]
    have e0 : (b0 * 65536 + b1 * 256 + b2) / 262144 % 64 * 4 +
        (b0 * 65536 + b1 * 256 + b2) / 4096 % 64 / 16 = b0 := by omega
    have e1 : (b0 * 65536 + b1 * 256 + b2) / 4096 % 64 % 16 * 16 +
        (b0 * 65536 + b1 * 256 + b2) / 64 % 64 / 4 = b1 := by omega
    have e2 : (b0 * 65536 + b1 * 256 + b2) / 64 % 64 % 4 * 64 +
        (b0 * 65536 + b1 * 256 + b2) % 64 = b2 := by omega
    rw [e0, e1]
    show b0 :: b1 :: ((b0 * 65536 + b1 * 256 + b2) / 64 % 64 % 4 * 64 +
      (b0 * 65536 + b1 * 256 + b2) % 64) :: rest = b0 :: b1 :: b2 :: rest
    rw [e2]

/-- A concrete stand-in for `_render_html_and_md` in endpoint runs. -/
def sampleRender : Payload → String → Except String (String × String) :=
  fun _ _ => .ok ("<html>", "md")

/-- A concrete stand-in for `_write_pdf` producing the bytes `%PDF`. -/
def sampleWrite : String → String → String → Except String (List Nat) :=
  fun _ _ _ => .ok [37, 80, 68, 70]

/-- C1 counterexample: on a successful `POST /render_b64` for the title
`"Weekly Report"` at clock 1700000000 against an empty storage directory,
the JSON `filename` field is `"Weekly_Report.pdf"`, but fetching
`GET /file/Weekly_Report.pdf` is a 404 — the persisted file lives under the
timestamp-suffixed name, so the reported `filename` does not identify it. -/
theorem render_b64_filename_counterexample :
    (render_pdf_base64 (.ok samplePayload) sampleRender sampleWrite "t"
        1700000000 "http://h/" ⟨[]⟩).1
      = .ok { filename := "Weekly_Report.pdf"
              mime := "application/pdf"
              data := "JVBERg=="
              file_url := "http://h/file/Weekly_Report_1700000000.pdf" }
  ∧ download_file (render_pdf_base64 (.ok samplePayload) sampleRender
        sampleWrite "t" 1700000000 "http://h/" ⟨[]⟩).2 "Weekly_Report.pdf"
      = .error 404 :=
  ⟨rfl, rfl⟩

/-- C1 amended: after a successful `POST /render_b64`, the returned
`file_url` ends in the sanitized timestamp-suffixed stored name
`_safe_filename(title)`, and fetching `GET /file/{that name}` yields
exactly the bytes obtained by base64-decoding the response's `data` field;
the `filename` field is only the title-derived display name. -/
theorem render_b64_file_url_roundtrip (parse : Except String Payload)
    (render : Payload → String → Except String (String × String))
    (write : String → String → String → Except String (List Nat))
    (t : String) (now : Nat) (base_url : String) (st : Storage)
    (p : Payload) (resp : B64Response)
    (hp : parse = .ok p)
    (hbytes : ∀ h m bs, write h m t = .ok bs → ∀ b ∈ bs, b < 256)
    (hok : (render_pdf_base64 parse render write t now base_url st).1
      = .ok resp) :
    resp.file_url = rstripSlash base_url ++ "/file/" ++ safe_filename p.title now
  ∧ resp.filename = replaceSpaces p.title ++ ".pdf"
  ∧ download_file (render_pdf_base64 parse render write t now base_url st).2
      (safe_filename p.title now) = .ok (b64decodeChars resp.data.data) := by
  subst hp
  cases hr : render p t with
  | error e =>
    simp only [render_pdf_base64, hr] at hok
    exact absurd hok (by simp)
  | ok pair =>
    obtain ⟨html, md⟩ := pair
    cases hw : write html md t with
    | error e =>
      simp only [render_pdf_base64, hr, hw] at hok
      exact absurd hok (by simp)
    | ok bytes =>
      have hb : ∀ b ∈ bytes, b < 256 := hbytes html md bytes hw
      simp only [render_pdf_base64, hr, hw, Except.ok.injEq] at hok
      subst hok
      refine ⟨rfl, rfl, ?_⟩
      simp only [render_pdf_base64, hr, hw, download_file, Storage.read,
        Storage.write, List.lookup, beq_self_eq_true]
      rw [b64_roundtrip bytes hb]

/-- The response of the concrete successful `/render_b64` run. -/
def sampleResponse : B64Response :=
  { filename := "Weekly_Report.pdf"
    mime := "application/pdf"
    data := "JVBERg=="
    file_url := "http://h/file/Weekly_Report_1700000000.pdf" }

/-- Witness for the amended C1: on the concrete successful run, fetching
the stored filename returns the base64-decode of the `data` field. -/
theorem render_b64_file_url_roundtrip_witness :
    download_file (render_pdf_base64 (.ok samplePayload) sampleRender
        sampleWrite "t" 1700000000 "http://h/" ⟨[]⟩).2
      (safe_filename samplePayload.title 1700000000)
    = .ok (b64decodeChars sampleResponse.data.data) :=
  (render_b64_file_url_roundtrip (.ok samplePayload) sampleRender sampleWrite
    "t" 1700000000 "http://h/" ⟨[]⟩ samplePayload sampleResponse rfl
    (by
      intro h m bs hw b hb
      have : bs = [37, 80, 68, 70] := by
        have := hw
        simp only [sampleWrite, Except.ok.injEq] at this
        exact this.symm
      subst this
      simp at hb
      rcases hb with h1 | h1 | h1 | h1 <;> omega)
    rfl).2.2
